import Mathlib

/-
  Shallow embedding of the tex_tmpl_rs crate (src/src/lib.rs).

  The crate is a thin pipeline around two external collaborators: the
  handlebars substitution engine and the tectonic TeX-to-PDF compiler.
  The crate's own code (`TemplateRecipe`, `prepare_tex`, `render_pdf`,
  `render_tex`) is embedded directly from the source.  The two external
  collaborators are not part of the repository; where their behaviour
  decides a claim they are modelled from the specification's description
  of their contract (marked "Modelled from the spec" below).

  Machine-level simplifications: filesystem paths are strings, a
  filesystem is a partial map from paths to file contents, and the
  generic `T : Serialize` data value is restricted to a flat string-keyed
  mapping (the only shape the specification's properties exercise).
-/

namespace TexTmpl

/-- Contents of one file: UTF-8 text (readable by `read_to_string`) or raw
bytes (as written by the binary stage). -/
inductive FileData where
  | text (s : String)
  | bytes (bs : List Nat)
deriving DecidableEq

/-- A filesystem: a partial map from paths to file contents. -/
def FS : Type := String → Option FileData

/-- `File::create` followed by `write_all`: create or truncate the file at
path `p` and write `d` in full. -/
def FS.write (fs : FS) (p : String) (d : FileData) : FS :=
  fun q => if q = p then some d else fs q

/-- `std::fs::read_to_string`: succeeds exactly on existing text files. -/
def readToString (fs : FS) (p : String) : Option String :=
  match fs p with
  | some (.text s) => some s
  | _ => none

/-- Modelled from the spec (§4.2): a custom substitution function maps the
invocation's arguments and the data context to appended output text or a
rendering failure.  (The Rust signature also passes the engine handle and
mutable render state; no claim depends on those, and the reference
function-pointer type cannot capture state.) -/
def HelperFn : Type :=
  List String → List (String × String) → Except String String

/-- `HandlebarsHelper` (src/src/lib.rs lines 9-18): a helper name paired
with its function. -/
def HandlebarsHelper : Type := String × HelperFn

/-- `TemplateRecipe` (src/src/lib.rs lines 23-28): template path, output
path, data mapping, and optional helpers. -/
structure TemplateRecipe where
  template : String
  output : String
  data : List (String × String)
  helpers : Option (List HandlebarsHelper)

/-- One parsed template element: literal text, or a substitution marker
naming a key or helper with its arguments.  Modelled from the spec
(glossary: template = literal text interleaved with substitution
markers). -/
inductive TItem where
  | lit (s : String)
  | marker (name : String) (args : List String)
deriving DecidableEq

/-- First-key association lookup on a string-keyed list. -/
def assq {α : Type} (k : String) : List (String × α) → Option α
  | [] => none
  | (k', v) :: rest => if k' = k then some v else assq k rest

/-- Scan until the marker opener; return the literal prefix and, when an
opener was found, the remainder after it. -/
def splitAtOpen : List Char → List Char × Option (List Char)
  | [] => ([], none)
  | '\x7b' :: '\x7b' :: rest => ([], some rest)
  | c :: rest =>
    let (pre, r) := splitAtOpen rest
    (c :: pre, r)

/-- Scan until the marker closer; return the marker body and the remainder,
or `none` when the marker is never closed. -/
def splitAtClose : List Char → Option (List Char × List Char)
  | [] => none
  | '\x7d' :: '\x7d' :: rest => some ([], rest)
  | c :: rest =>
    match splitAtClose rest with
    | some (ins, rem) => some (c :: ins, rem)
    | none => none

/-- Space-separated words of a marker body, accumulator-style. -/
def wordsAux : List Char → List Char → List String
  | [], acc => if acc = [] then [] else [String.mk acc.reverse]
  | c :: rest, acc =>
    if c = ' ' then
      if acc = [] then wordsAux rest []
      else String.mk acc.reverse :: wordsAux rest []
    else wordsAux rest (c :: acc)

/-- Space-separated words of a marker body: name followed by arguments. -/
def markerWords (ins : List Char) : List String :=
  wordsAux ins []

/-- Prepend a literal item, dropping it when empty. -/
def consLit (cs : List Char) (items : List TItem) : List TItem :=
  if cs = [] then items else .lit (String.mk cs) :: items

/-- Modelled from the spec (§4.1 step 5, §4.4 errors): compile a raw
template into items, failing on malformed markers.  Fuel is an upper bound
on recursion depth; `parseTemplate` supplies enough. -/
def parseItems : Nat → List Char → Except String (List TItem)
  | 0, _ => .error "template compile error: fuel exhausted"
  | fuel + 1, cs =>
    match splitAtOpen cs with
    | (pre, none) => .ok (consLit pre [])
    | (pre, some rest) =>
      match splitAtClose rest with
      | none => .error "template compile error: unclosed marker"
      | some (ins, rem) =>
        match markerWords ins with
        | [] => .error "template compile error: empty marker"
        | n :: args =>
          match parseItems fuel rem with
          | .error e => .error e
          | .ok items => .ok (consLit pre (.marker n args :: items))

/-- Compile a template string. -/
def parseTemplate (s : String) : Except String (List TItem) :=
  parseItems (s.data.length + 1) s.data

/-- Modelled from the spec (§6): the external substitution engine's state —
a configurable escape function, named helpers, named compiled templates. -/
structure Handlebars where
  escape_fn : String → String
  helpers : List (String × HelperFn)
  templates : List (String × List TItem)

/-- Modelled from the spec (§2, §4.1 step 2): the engine's default
HTML-style escaping of markup-sensitive characters. -/
def htmlEscapeChar (c : Char) : String :=
  if c = '&' then "&amp;"
  else if c = '<' then "&lt;"
  else if c = '>' then "&gt;"
  else if c = '\"' then "&quot;"
  else String.mk [c]

/-- HTML-style escape of a whole string. -/
def htmlEscape (s : String) : String :=
  String.join (s.data.map htmlEscapeChar)

/-- `Handlebars::new()`: fresh engine, default HTML-style escaping, no
helpers, no templates. -/
def Handlebars.new : Handlebars :=
  { escape_fn := htmlEscape, helpers := [], templates := [] }

/-- `register_escape_fn`: replace the escape function. -/
def Handlebars.register_escape_fn (hb : Handlebars) (f : String → String) :
    Handlebars :=
  { hb with escape_fn := f }

/-- `register_helper`: register a named helper (last registration wins). -/
def Handlebars.register_helper (hb : Handlebars) (n : String) (f : HelperFn) :
    Handlebars :=
  { hb with helpers := (n, f) :: hb.helpers }

/-- `register_template_string`: compile and store a named template. -/
def Handlebars.register_template_string (hb : Handlebars) (name s : String) :
    Except String Handlebars :=
  match parseTemplate s with
  | .error e => .error e
  | .ok t => .ok { hb with templates := (name, t) :: hb.templates }

/-- Modelled from the spec (§4.1 step 6, §4.2): resolve one marker.  A
registered helper name produces the helper's output; a bare unregistered
name is a data lookup whose value passes through the escape function; a
missing key or an unregistered helper invocation is a rendering failure. -/
def renderMarker (hb : Handlebars) (data : List (String × String))
    (n : String) (args : List String) : Except String String :=
  match assq n hb.helpers with
  | some f => f args data
  | none =>
    if args = [] then
      match assq n data with
      | some v => .ok (hb.escape_fn v)
      | none => .error ("rendering failed: missing key " ++ n)
    else
      .error ("rendering failed: unknown helper " ++ n)

/-- Walk the template items, substituting each marker. -/
def renderItems (hb : Handlebars) (data : List (String × String)) :
    List TItem → Except String String
  | [] => .ok ""
  | .lit s :: rest =>
    match renderItems hb data rest with
    | .error e => .error e
    | .ok t => .ok (s ++ t)
  | .marker n args :: rest =>
    match renderMarker hb data n args with
    | .error e => .error e
    | .ok o =>
      match renderItems hb data rest with
      | .error e => .error e
      | .ok t => .ok (o ++ t)

/-- `render`: look up the named template and substitute the data into it. -/
def Handlebars.render (hb : Handlebars) (name : String)
    (data : List (String × String)) : Except String String :=
  match assq name hb.templates with
  | none => .error ("rendering failed: template not found: " ++ name)
  | some items => renderItems hb data items

/-- Result of `prepare_tex`: the rendered text, a propagated rendering
error (`Box<dyn Error>`), or an unrecoverable abort (`expect` panic). -/
inductive PrepResult where
  | ok (s : String)
  | err (e : String)
  | fatal (msg : String)
deriving DecidableEq

/-- The engine as `prepare_tex` configures it (src/src/lib.rs lines 34-44):
fresh instance, escape function replaced by the identity passthrough, then
each helper registered in order. -/
def prepareRegistry (helpers : Option (List HandlebarsHelper)) : Handlebars :=
  let hb_reg := Handlebars.new.register_escape_fn (fun s => s)
  match helpers with
  | some hs => hs.foldl (fun r h => r.register_helper h.1 h.2) hb_reg
  | none => hb_reg

/-- `prepare_tex` (src/src/lib.rs lines 31-51): build the engine, read the
template (aborting when unreadable), register it under a fixed name, and
render it against the recipe's data. -/
def prepare_tex (recipe : TemplateRecipe) (fs : FS) : PrepResult :=
  let hb_reg := prepareRegistry recipe.helpers
  let template_name := "tex_template"
  match readToString fs recipe.template with
  | none => .fatal "Cannot read template file"
  | some tex_content =>
    match hb_reg.register_template_string template_name tex_content with
    | .error e => .err e
    | .ok hb_reg2 =>
      match hb_reg2.render template_name recipe.data with
      | .error e => .err e
      | .ok s => .ok s

/-- The external compilation backend (`tectonic::latex_to_pdf`): markup
text to artifact bytes, possibly failing. -/
def Backend : Type := String → Except String (List Nat)

/-- Result of a whole pipeline run, carrying the final filesystem. -/
inductive RunResult where
  | ok (fs : FS)
  | err (e : String) (fs : FS)
  | fatal (msg : String) (fs : FS)

/-- `render_pdf` (src/src/lib.rs lines 54-62): text stage, then the
compilation backend, then create/truncate `output` and write the bytes. -/
def render_pdf (latex_to_pdf : Backend) (recipe : TemplateRecipe)
    (fs : FS) : RunResult :=
  match prepare_tex recipe fs with
  | .fatal m => .fatal m fs
  | .err e => .err e fs
  | .ok tex =>
    match latex_to_pdf tex with
    | .error e => .err e fs
    | .ok pdf_data => .ok (fs.write recipe.output (.bytes pdf_data))

/-- `render_tex` (src/src/lib.rs lines 65-75): text stage, then persist the
text to the caller-supplied path.  No backend is invoked. -/
def render_tex (recipe : TemplateRecipe) (tex_path : String)
    (fs : FS) : RunResult :=
  match prepare_tex recipe fs with
  | .fatal m => .fatal m fs
  | .err e => .err e fs
  | .ok tex => .ok (fs.write tex_path (.text tex))

/- ------------------------------------------------------------------ -/
/- Concrete scenarios used to instantiate the theorems -/

/-- The spec's running example template `Hello, \x7b\x7bfoo\x7d\x7d!`. -/
def exTemplate : String := "Hello, \x7b\x7bfoo\x7d\x7d!"

/-- The spec's running example recipe: `foo = boo`, no helpers. -/
def exRecipe : TemplateRecipe :=
  { template := "t.tex", output := "o.pdf",
    data := [("foo", "boo")], helpers := none }

/-- A filesystem holding only the example template. -/
def exFS : FS :=
  fun p => if p = "t.tex" then some (.text exTemplate) else none

/-- A backend that always fails, for exercising the failure paths. -/
def failBackend : Backend := fun _ => .error "tectonic failed"

/-- A backend returning a fixed non-empty artifact. -/
def okBackend : Backend := fun _ => .ok [1, 2, 3]

/-- The filesystem after a successful `render_pdf` run on the example. -/
def exFSAfterPdf : FS := exFS.write "o.pdf" (.bytes [1, 2, 3])

/-- A helper joining its arguments, for the helper-invocation scenario. -/
def shoutFn : HelperFn := fun args _ => .ok (String.join args)

/-- A recipe whose template invokes the registered helper `shout`. -/
def helperRecipe : TemplateRecipe :=
  { template := "h.tex", output := "o.pdf",
    data := [], helpers := some [("shout", shoutFn)] }

/-- A filesystem holding a template that invokes the helper `shout`. -/
def helperFS : FS :=
  fun p => if p = "h.tex"
    then some (.text "X \x7b\x7bshout a b\x7d\x7d Y") else none

/-- A recipe whose template invokes an unregistered helper name. -/
def noHelperRecipe : TemplateRecipe :=
  { template := "h.tex", output := "o.pdf",
    data := [], helpers := none }

/-- A filesystem holding a template invoking the unregistered `nope`. -/
def noHelperFS : FS :=
  fun p => if p = "h.tex"
    then some (.text "X \x7b\x7bnope a\x7d\x7d Y") else none

/-- A recipe referencing a key absent from its (empty) data. -/
def missingKeyRecipe : TemplateRecipe :=
  { template := "m.tex", output := "o.pdf",
    data := [], helpers := none }

/-- A filesystem holding a template referencing the absent key `nope`. -/
def missingKeyFS : FS :=
  fun p => if p = "m.tex"
    then some (.text "Hi \x7b\x7bnope\x7d\x7d.") else none

/-- A filesystem holding a malformed template (unclosed marker). -/
def malformedFS : FS :=
  fun p => if p = "m.tex"
    then some (.text "bad \x7b\x7b oops") else none

/- ------------------------------------------------------------------ -/
/- Helper lemmas -/

deriving instance DecidableEq for Except

theorem string_append_empty (s : String) : s ++ "" = s := by
  apply String.ext
  simp [String.data_append]

theorem string_append_assoc (a b c : String) :
    a ++ b ++ c = a ++ (b ++ c) := by
  apply String.ext
  simp [String.data_append]

theorem foldl_register_escape (l : List HandlebarsHelper) (r : Handlebars) :
    (l.foldl (fun r h => r.register_helper h.1 h.2) r).escape_fn =
      r.escape_fn := by
  induction l generalizing r with
  | nil => rfl
  | cons h t ih => exact ih _

theorem prepareRegistry_escape (hs : Option (List HandlebarsHelper)) :
    (prepareRegistry hs).escape_fn = fun s => s := by
  unfold prepareRegistry
  cases hs with
  | none => rfl
  | some l => exact foldl_register_escape l _

/-- Rendering a three-item template whose single marker resolves. -/
theorem renderItems_three (hb : Handlebars) (data : List (String × String))
    (pre post out : String) (n : String) (args : List String)
    (hm : renderMarker hb data n args = .ok out) :
    renderItems hb data [.lit pre, .marker n args, .lit post] =
      .ok (pre ++ out ++ post) := by
  simp [renderItems, hm, string_append_empty, string_append_assoc]

/-- Rendering a three-item template whose single marker fails. -/
theorem renderItems_three_err (hb : Handlebars)
    (data : List (String × String)) (pre post : String)
    (n : String) (args : List String) (e : String)
    (hm : renderMarker hb data n args = .error e) :
    renderItems hb data [.lit pre, .marker n args, .lit post] =
      .error e := by
  simp [renderItems, hm]

/- ------------------------------------------------------------------ -/
/- Claims -/

/-- C1: a template whose marker references a key present in the data
renders to the template text with the marker replaced by that key's value
as plain text and every other character unchanged. -/
theorem c1_substitution (r : TemplateRecipe) (fs : FS)
    (tex pre post k v : String)
    (hread : readToString fs r.template = some tex)
    (hparse : parseTemplate tex = .ok [.lit pre, .marker k [], .lit post])
    (hnohelper : assq k (prepareRegistry r.helpers).helpers = none)
    (hdata : assq k r.data = some v) :
    prepare_tex r fs = .ok (pre ++ v ++ post) := by
  have hm : renderMarker
      { escape_fn := (prepareRegistry r.helpers).escape_fn,
        helpers := (prepareRegistry r.helpers).helpers,
        templates :=
          ("tex_template", [TItem.lit pre, TItem.marker k [], TItem.lit post])
            :: (prepareRegistry r.helpers).templates }
      r.data k [] = .ok v := by
    simp [renderMarker, hnohelper, hdata, prepareRegistry_escape]
  simp only [prepare_tex, Handlebars.register_template_string,
    Handlebars.render, hread, hparse, assq, if_pos,
    renderItems_three _ _ _ _ _ _ _ hm]

/-- C1 witness: `Hello, \x7b\x7bfoo\x7d\x7d!` with `foo = boo` renders to
`Hello, boo!`. -/
theorem c1_substitution_witness :
    prepare_tex exRecipe exFS = .ok "Hello, boo!" := by
  have h := c1_substitution exRecipe exFS
    exTemplate "Hello, " "!" "foo" "boo"
    rfl rfl rfl rfl
  simpa using h

/-- C2: substituted values are inserted verbatim — the escape function
`prepare_tex` installs is the identity on every string, and the spec's
example value `<&%#>` passes through unchanged. -/
theorem c2_no_escaping :
    (∀ (hs : Option (List HandlebarsHelper)) (s : String),
      (prepareRegistry hs).escape_fn s = s) ∧
    prepare_tex
      { template := "t.tex", output := "o.pdf",
        data := [("name", "<&%#>")], helpers := none }
      (fun p => if p = "t.tex"
        then some (.text "Hello, \x7b\x7bname\x7d\x7d!") else none) =
      .ok "Hello, <&%#>!" := by
  constructor
  · intro hs s
    rw [prepareRegistry_escape]
  · rfl

/-- C3: `render_tex` persists the text-stage output to the caller-supplied
path and touches nothing else — in particular it writes no compiled binary
to the recipe's output path, and its definition invokes no compilation
backend at all. -/
theorem c3_render_tex_text_only (r : TemplateRecipe) (tp : String)
    (fs : FS) (tex : String)
    (hprep : prepare_tex r fs = .ok tex) :
    render_tex r tp fs = .ok (fs.write tp (.text tex)) ∧
    (fs.write tp (.text tex)) tp = some (.text tex) ∧
    ∀ p, p ≠ tp → (fs.write tp (.text tex)) p = fs p := by
  refine ⟨?_, ?_, ?_⟩
  · simp only [render_tex, hprep]
  · simp [FS.write]
  · intro p hp
    simp [FS.write, hp]

/-- C3 witness: on the example recipe the text lands at `out.tex` and the
pre-existing state of the output path `o.pdf` is untouched. -/
theorem c3_render_tex_text_only_witness :
    render_tex exRecipe "out.tex" exFS =
      .ok (exFS.write "out.tex" (.text "Hello, boo!")) ∧
    (exFS.write "out.tex" (.text "Hello, boo!")) "o.pdf" = exFS "o.pdf" := by
  have h := c3_render_tex_text_only exRecipe "out.tex" exFS "Hello, boo!" rfl
  exact ⟨h.1, h.2.2 "o.pdf" (by decide)⟩

/-- C4: when the template cannot be read, `prepare_tex` aborts with the
`expect` message rather than returning any value — in particular it never
returns a normal (or empty) text result. -/
theorem c4_unreadable_template (r : TemplateRecipe) (fs : FS)
    (h : readToString fs r.template = none) :
    prepare_tex r fs = .fatal "Cannot read template file" ∧
    ∀ s, prepare_tex r fs ≠ .ok s := by
  have hf : prepare_tex r fs = .fatal "Cannot read template file" := by
    simp only [prepare_tex, h]
  refine ⟨hf, fun s hs => ?_⟩
  rw [hf] at hs
  exact PrepResult.noConfusion hs

/-- C4 witness: a recipe pointing at a missing path aborts. -/
theorem c4_unreadable_template_witness :
    prepare_tex
      { template := "missing.tex", output := "o.pdf",
        data := [], helpers := none }
      (fun _ => none) = .fatal "Cannot read template file" :=
  (c4_unreadable_template
    { template := "missing.tex", output := "o.pdf",
      data := [], helpers := none }
    (fun _ => none) rfl).1

/-- C5: template-compilation failure and substitution failure both surface
as the single propagated-error category of `prepare_tex`; in particular a
marker referencing a key absent from the data yields an error, never a
successful render with the marker silently dropped. -/
theorem c5_failures_are_errors :
    (∀ (r : TemplateRecipe) (fs : FS) (tex e : String),
      readToString fs r.template = some tex →
      parseTemplate tex = .error e →
      prepare_tex r fs = .err e) ∧
    (∀ (r : TemplateRecipe) (fs : FS) (tex pre post k : String),
      readToString fs r.template = some tex →
      parseTemplate tex = .ok [.lit pre, .marker k [], .lit post] →
      assq k (prepareRegistry r.helpers).helpers = none →
      assq k r.data = none →
      prepare_tex r fs = .err ("rendering failed: missing key " ++ k) ∧
        ∀ s, prepare_tex r fs ≠ .ok s) := by
  constructor
  · intro r fs tex e hread hparse
    simp only [prepare_tex, Handlebars.register_template_string,
      hread, hparse]
  · intro r fs tex pre post k hread hparse hnohelper hnokey
    have hm : renderMarker
        { escape_fn := (prepareRegistry r.helpers).escape_fn,
          helpers := (prepareRegistry r.helpers).helpers,
          templates :=
            ("tex_template",
              [TItem.lit pre, TItem.marker k [], TItem.lit post])
              :: (prepareRegistry r.helpers).templates }
        r.data k [] = .error ("rendering failed: missing key " ++ k) := by
      simp [renderMarker, hnohelper, hnokey]
    have herr : prepare_tex r fs =
        .err ("rendering failed: missing key " ++ k) := by
      simp only [prepare_tex, Handlebars.register_template_string,
        Handlebars.render, hread, hparse, assq, if_pos,
        renderItems_three_err _ _ _ _ _ _ _ hm]
    refine ⟨herr, fun s hs => ?_⟩
    rw [herr] at hs
    exact PrepResult.noConfusion hs

/-- C5 witness: an unclosed marker is a compile error, and the template
`Hi \x7b\x7bnope\x7d\x7d` against empty data is a missing-key error. -/
theorem c5_failures_are_errors_witness :
    prepare_tex missingKeyRecipe malformedFS =
      .err "template compile error: unclosed marker" ∧
    prepare_tex missingKeyRecipe missingKeyFS =
      .err "rendering failed: missing key nope" :=
  ⟨c5_failures_are_errors.1 missingKeyRecipe malformedFS
      "bad \x7b\x7b oops" "template compile error: unclosed marker"
      rfl rfl,
    (c5_failures_are_errors.2 missingKeyRecipe missingKeyFS
      "Hi \x7b\x7bnope\x7d\x7d." "Hi " "." "nope" rfl rfl rfl rfl).1⟩

/-- C6: a marker invoking a registered helper name renders to the helper's
output in place of the marker; a marker invoking an unregistered name (with
arguments) is a rendering failure, never a successful render with the
marker silently omitted. -/
theorem c6_helper_invocation :
    (∀ (r : TemplateRecipe) (fs : FS) (tex pre post n out : String)
        (args : List String) (f : HelperFn),
      readToString fs r.template = some tex →
      parseTemplate tex = .ok [.lit pre, .marker n args, .lit post] →
      assq n (prepareRegistry r.helpers).helpers = some f →
      f args r.data = .ok out →
      prepare_tex r fs = .ok (pre ++ out ++ post)) ∧
    (∀ (r : TemplateRecipe) (fs : FS) (tex pre post n a : String)
        (args : List String),
      readToString fs r.template = some tex →
      parseTemplate tex = .ok [.lit pre, .marker n (a :: args), .lit post] →
      assq n (prepareRegistry r.helpers).helpers = none →
      prepare_tex r fs = .err ("rendering failed: unknown helper " ++ n) ∧
        ∀ s, prepare_tex r fs ≠ .ok s) := by
  constructor
  · intro r fs tex pre post n out args f hread hparse hhelper hf
    have hm : renderMarker
        { escape_fn := (prepareRegistry r.helpers).escape_fn,
          helpers := (prepareRegistry r.helpers).helpers,
          templates :=
            ("tex_template",
              [TItem.lit pre, TItem.marker n args, TItem.lit post])
              :: (prepareRegistry r.helpers).templates }
        r.data n args = .ok out := by
      simp [renderMarker, hhelper, hf]
    simp only [prepare_tex, Handlebars.register_template_string,
      Handlebars.render, hread, hparse, assq, if_pos,
      renderItems_three _ _ _ _ _ _ _ hm]
  · intro r fs tex pre post n a args hread hparse hnohelper
    have hm : renderMarker
        { escape_fn := (prepareRegistry r.helpers).escape_fn,
          helpers := (prepareRegistry r.helpers).helpers,
          templates :=
            ("tex_template",
              [TItem.lit pre, TItem.marker n (a :: args), TItem.lit post])
              :: (prepareRegistry r.helpers).templates }
        r.data n (a :: args) =
          .error ("rendering failed: unknown helper " ++ n) := by
      simp [renderMarker, hnohelper]
    have herr : prepare_tex r fs =
        .err ("rendering failed: unknown helper " ++ n) := by
      simp only [prepare_tex, Handlebars.register_template_string,
        Handlebars.render, hread, hparse, assq, if_pos,
        renderItems_three_err _ _ _ _ _ _ _ hm]
    refine ⟨herr, fun s hs => ?_⟩
    rw [herr] at hs
    exact PrepResult.noConfusion hs

/-- C6 witness: the registered helper `shout` joins its arguments in place
of the marker, and invoking the unregistered `nope` fails. -/
theorem c6_helper_invocation_witness :
    prepare_tex helperRecipe helperFS = .ok "X ab Y" ∧
    prepare_tex noHelperRecipe noHelperFS =
      .err "rendering failed: unknown helper nope" := by
  refine ⟨?_, ?_⟩
  · have h := c6_helper_invocation.1 helperRecipe helperFS
      "X \x7b\x7bshout a b\x7d\x7d Y" "X " " Y" "shout" "ab"
      ["a", "b"] shoutFn rfl rfl rfl rfl
    simpa using h
  · exact (c6_helper_invocation.2 noHelperRecipe noHelperFS
      "X \x7b\x7bnope a\x7d\x7d Y" "X " " Y" "nope" "a" []
      rfl rfl rfl).1

/-- C7: when the text stage fails, `render_pdf` returns that failure
unchanged with the filesystem untouched, and the result is independent of
the compilation backend (the backend is never invoked). -/
theorem c7_propagates_text_failure (r : TemplateRecipe) (fs : FS)
    (e : String) (b : Backend)
    (hprep : prepare_tex r fs = .err e) :
    render_pdf b r fs = .err e fs ∧
    ∀ b2 : Backend, render_pdf b2 r fs = render_pdf b r fs := by
  constructor
  · simp only [render_pdf, hprep]
  · intro b2
    simp only [render_pdf, hprep]

/-- C7 witness: the missing-key failure passes through `render_pdf`
unchanged, identically for two different backends. -/
theorem c7_propagates_text_failure_witness :
    render_pdf okBackend missingKeyRecipe missingKeyFS =
      .err "rendering failed: missing key nope" missingKeyFS ∧
    render_pdf failBackend missingKeyRecipe missingKeyFS =
      render_pdf okBackend missingKeyRecipe missingKeyFS := by
  have h := c7_propagates_text_failure missingKeyRecipe missingKeyFS
    "rendering failed: missing key nope" okBackend
    c5_failures_are_errors_witness.2
  exact ⟨h.1, h.2 failBackend⟩

/-- C8: on a successful `render_pdf` run the output path holds exactly the
complete byte sequence the backend returned (the file is created or
truncated to it), every other path is untouched, and — the backend
returning a complete artifact, i.e. non-empty bytes — the output file is
non-empty. -/
theorem c8_artifact_written (b : Backend) (r : TemplateRecipe)
    (fs fs2 : FS) (tex : String) (bs : List Nat)
    (hcontract : ∀ s l, b s = .ok l → l ≠ [])
    (hprep : prepare_tex r fs = .ok tex)
    (hback : b tex = .ok bs)
    (hrun : render_pdf b r fs = .ok fs2) :
    fs2 = fs.write r.output (.bytes bs) ∧
    fs2 r.output = some (.bytes bs) ∧ bs ≠ [] ∧
    ∀ p, p ≠ r.output → fs2 p = fs p := by
  have hfs : fs2 = fs.write r.output (.bytes bs) := by
    simp only [render_pdf, hprep, hback] at hrun
    exact (RunResult.ok.inj hrun).symm
  subst hfs
  refine ⟨rfl, ?_, hcontract tex bs hback, ?_⟩
  · simp [FS.write]
  · intro p hp
    simp [FS.write, hp]

/-- C8 witness: a successful run on the example writes the backend's bytes
at `o.pdf`, which is therefore non-empty. -/
theorem c8_artifact_written_witness :
    exFSAfterPdf "o.pdf" = some (.bytes [1, 2, 3]) ∧
    ([1, 2, 3] : List Nat) ≠ [] := by
  have h := c8_artifact_written okBackend exRecipe exFS exFSAfterPdf
    "Hello, boo!" [1, 2, 3]
    (fun s l hl => by
      simp only [okBackend, Except.ok.injEq] at hl
      simp [← hl])
    c1_substitution_witness rfl rfl
  exact ⟨h.2.1, h.2.2.1⟩

/-- C9: the text stage is a pure function of the template contents, the
data, and the helpers: any two calls agreeing on those three return
identical results, regardless of everything else in the recipes and
filesystems (hence rendering the same recipe twice is byte-identical). -/
theorem c9_text_stage_pure (r1 r2 : TemplateRecipe) (fs1 fs2 : FS)
    (hdata : r1.data = r2.data)
    (hhelpers : r1.helpers = r2.helpers)
    (htex : readToString fs1 r1.template = readToString fs2 r2.template) :
    prepare_tex r1 fs1 = prepare_tex r2 fs2 := by
  unfold prepare_tex
  rw [htex, hdata, hhelpers]

/-- C9 witness: two recipes with different template paths and output paths
but the same template text, data, and helpers render identically. -/
theorem c9_text_stage_pure_witness :
    prepare_tex exRecipe exFS =
      prepare_tex
        { template := "other.tex", output := "elsewhere.pdf",
          data := [("foo", "boo")], helpers := none }
        (fun p => if p = "other.tex"
          then some (.text exTemplate) else none) :=
  c9_text_stage_pure exRecipe
    { template := "other.tex", output := "elsewhere.pdf",
      data := [("foo", "boo")], helpers := none }
    exFS
    (fun p => if p = "other.tex" then some (.text exTemplate) else none)
    rfl rfl rfl

/-- C10: when `render_pdf` fails — in the text stage or in the backend
call — the returned filesystem is the input filesystem: the output path is
neither created nor truncated, so a pre-existing file there is unchanged. -/
theorem c10_no_write_before_success (b : Backend) (r : TemplateRecipe)
    (fs : FS) :
    (∀ e fs2, render_pdf b r fs = .err e fs2 → fs2 = fs) ∧
    (∀ m fs2, render_pdf b r fs = .fatal m fs2 → fs2 = fs) := by
  constructor
  · intro e fs2 h
    unfold render_pdf at h
    split at h
    · exact RunResult.noConfusion h
    · injection h with h1 h2
      exact h2.symm
    · split at h
      · injection h with h1 h2
        exact h2.symm
      · exact RunResult.noConfusion h
  · intro m fs2 h
    unfold render_pdf at h
    split at h
    · injection h with h1 h2
      exact h2.symm
    · exact RunResult.noConfusion h
    · split at h
      · exact RunResult.noConfusion h
      · exact RunResult.noConfusion h

/-- C10 witness: a backend failure on the example recipe leaves the
filesystem exactly as it was. -/
theorem c10_no_write_before_success_witness : exFS = exFS :=
  (c10_no_write_before_success failBackend exRecipe exFS).1
    "tectonic failed" exFS rfl

end TexTmpl
